import Mathlib

/-
Verification development for the `eventsocket` module (src/src/eventsocket.py).

The module implements a small event-dispatch layer over websockets: inbound
text frames of the form `<event><json>` are parsed and routed to a handler
registered under the event name, and outbound emissions are serialized back
into the same wire format.

The embedding below models, faithfully to the Python source:
  * JSON values, `json.loads` (CPython's default decoder: whitespace rules,
    number lexemes, string escapes, `NaN`/`Infinity` constants, strict
    rejection of raw control characters, "extra data" detection) and
    `json.dumps` (default separators `", "` and `": "`, `ensure_ascii`).
  * The semantics of `re.match(r'(.+)((?:[{\[]).+)', message)` used by
    `EventSocketHandler.on_message`: both `.+` groups are GREEDY and `.`
    excludes newline, so the split lands on the LAST eligible `[`/`<brace>`,
    and a failed match yields `None` (so `match.group(1)` raises
    `AttributeError`, which the surrounding `try` does not catch: it only
    catches `json.decoder.JSONDecodeError`).
  * The router: `listeners` is a Python dict (upsert, last wins),
    `sockets` a Python list (`append`, positional indexing with negative
    indices, `remove` raising `ValueError` when absent), `_next_sid` a
    counter that only increases; `on_received_message` wraps the handler
    call in `except KeyError or IndexError`, which evaluates to
    `except KeyError` only.

Python exceptions are modelled by `PyError`; fallible operations return
`Except PyError _` / result records with an `exc` field for an exception
propagating out of the modelled frame.
-/

namespace EventSocket

/-! ### JSON values -/

/-- A JSON value as produced by `json.loads`.  Numbers are kept as their
source lexeme (CPython parses them to `int`/`float`; none of the properties
verified here depend on numeric normalisation, and the lexeme determines the
parsed value).  Objects are association lists in insertion order, as a
Python dict. -/
inductive JValue where
  | null : JValue
  | bool (b : Bool) : JValue
  | num (lexeme : String) : JValue
  | str (s : String) : JValue
  | arr (items : List JValue) : JValue
  | obj (fields : List (String × JValue)) : JValue

/-- Left brace character, written via its code point to keep brace
characters out of the source text. -/
def lbrace : Char := Char.ofNat 123

/-- Right brace character. -/
def rbrace : Char := Char.ofNat 125

/-- JSON whitespace accepted between tokens by CPython's decoder
(`[ \t\n\r]`). -/
def isJsonWs (c : Char) : Bool :=
  c = ' ' || c = '\t' || c = '\n' || c = '\r'

/-- Skip JSON whitespace. -/
def skipWs (cs : List Char) : List Char :=
  cs.dropWhile isJsonWs

/-- Split a leading run of ASCII digits. -/
def digitSpan (cs : List Char) : List Char × List Char :=
  (cs.takeWhile Char.isDigit, cs.dropWhile Char.isDigit)

/-- Optional fraction and exponent of a JSON number
(`(\.\d+)?([eE][-+]?\d+)?`), returned as extra lexeme characters plus the
rest of the input.  As in the CPython regex, a dot or exponent marker not
followed by at least one digit is not consumed. -/
def parseFracExp (cs : List Char) : List Char × List Char :=
  let fr :=
    match cs with
    | '.' :: r =>
      let (ds, r') := digitSpan r
      if ds.isEmpty then (([] : List Char), cs) else ('.' :: ds, r')
    | _ => ([], cs)
  let cs1 := fr.2
  let ex :=
    match cs1 with
    | c :: r =>
      if c = 'e' || c = 'E' then
        match r with
        | s :: r2 =>
          if s = '+' || s = '-' then
            let (ds, r3) := digitSpan r2
            if ds.isEmpty then (([] : List Char), cs1) else (c :: s :: ds, r3)
          else
            let (ds, r3) := digitSpan r
            if ds.isEmpty then (([] : List Char), cs1) else (c :: ds, r3)
        | [] => ([], cs1)
      else ([], cs1)
    | [] => ([], cs1)
  (fr.1 ++ ex.1, ex.2)

/-- JSON number lexeme, per CPython's `NUMBER_RE`:
`(-?(?:0|[1-9]\d*))(\.\d+)?([eE][-+]?\d+)?`.  Returns the matched lexeme and
the rest; `none` when no number starts here. -/
def parseNumber (cs : List Char) : Option (String × List Char) :=
  let (negPfx, cs1) :=
    match cs with
    | '-' :: r => ((['-'] : List Char), r)
    | _ => ([], cs)
  match cs1 with
  | '0' :: r =>
    let (fe, rest) := parseFracExp r
    some (String.mk (negPfx ++ '0' :: fe), rest)
  | c :: r =>
    if c.isDigit then
      let (ds, r1) := digitSpan r
      let (fe, rest) := parseFracExp r1
      some (String.mk (negPfx ++ c :: ds ++ fe), rest)
    else none
  | [] => none

/-- Value of one hexadecimal digit. -/
def hexDigitVal (c : Char) : Option Nat :=
  if '0' ≤ c ∧ c ≤ '9' then some (c.toNat - 48)
  else if 'a' ≤ c ∧ c ≤ 'f' then some (c.toNat - 87)
  else if 'A' ≤ c ∧ c ≤ 'F' then some (c.toNat - 55)
  else none

/-- Four hexadecimal digits, as in a `\uXXXX` escape. -/
def hex4 (cs : List Char) : Option (Nat × List Char) :=
  match cs with
  | a :: b :: c :: d :: r =>
    match hexDigitVal a, hexDigitVal b, hexDigitVal c, hexDigitVal d with
    | some x, some y, some z, some w => some (((x * 16 + y) * 16 + z) * 16 + w, r)
    | _, _, _, _ => none
  | _ => none

/-- Decoded character of a single-letter escape (`\" \\ \/ \b \f \n \r \t`);
`none` for an invalid escape, as CPython's `py_scanstring` raises there. -/
def escDecode (c : Char) : Option Char :=
  if c = '"' then some '"'
  else if c = '\\' then some '\\'
  else if c = '/' then some '/'
  else if c = 'b' then some (Char.ofNat 8)
  else if c = 'f' then some (Char.ofNat 12)
  else if c = 'n' then some '\n'
  else if c = 'r' then some '\r'
  else if c = 't' then some '\t'
  else none

/-- Prepend a decoded character to the result of the rest of a string body. -/
def consChar (c : Char) (rest : Option (List Char × List Char)) :
    Option (List Char × List Char) :=
  rest.map fun p => (c :: p.1, p.2)

/-- Body of a JSON string, starting after the opening quote; returns the
decoded characters and the input after the closing quote.  Mirrors CPython's
strict `py_scanstring`: raw control characters (below 0x20) are rejected,
`\uXXXX` escapes are decoded, a high/low surrogate escape pair forms one
character.  (A LONE surrogate escape is kept as a surrogate `str` element by
CPython; Lean characters are Unicode scalars, so `Char.ofNat` degrades it —
no verified property depends on that corner.) -/
def parseStringBody : Nat → List Char → Option (List Char × List Char)
  | 0, _ => none
  | _, [] => none
  | fuel + 1, c :: r =>
    if c = '"' then some ([], r)
    else if c = '\\' then
      match r with
      | [] => none
      | e :: r2 =>
        if e = 'u' then
          match hex4 r2 with
          | none => none
          | some (n, r3) =>
            if 0xD800 ≤ n ∧ n ≤ 0xDBFF then
              match r3 with
              | '\\' :: 'u' :: r4 =>
                match hex4 r4 with
                | some (m, r5) =>
                  if 0xDC00 ≤ m ∧ m ≤ 0xDFFF then
                    consChar (Char.ofNat (0x10000 + (n - 0xD800) * 0x400 + (m - 0xDC00)))
                      (parseStringBody fuel r5)
                  else consChar (Char.ofNat n) (parseStringBody fuel r3)
                | none => consChar (Char.ofNat n) (parseStringBody fuel r3)
              | _ => consChar (Char.ofNat n) (parseStringBody fuel r3)
            else consChar (Char.ofNat n) (parseStringBody fuel r3)
        else
          match escDecode e with
          | some d => consChar d (parseStringBody fuel r2)
          | none => none
    else if c.toNat < 0x20 then none
    else consChar c (parseStringBody fuel r)

/-- Insert a key/value pair into an object, Python-dict style: an existing
key keeps its position and gets the new value, a new key is appended. -/
def objUpsert (fields : List (String × JValue)) (k : String) (v : JValue) :
    List (String × JValue) :=
  match fields with
  | [] => [(k, v)]
  | (k', v') :: rest =>
    if k' = k then (k, v) :: rest else (k', v') :: objUpsert rest k v

mutual

/-- One JSON value at the head of the input (no leading-whitespace skip: the
callers skip whitespace first, as in CPython's `_scan_once`). -/
def parseValue : Nat → List Char → Option (JValue × List Char)
  | 0, _ => none
  | fuel + 1, cs =>
    match cs with
    | [] => none
    | c :: r =>
      if c = '"' then
        match parseStringBody (r.length + 1) r with
        | some (chars, rest) => some (.str (String.mk chars), rest)
        | none => none
      else if c = '[' then
        match skipWs r with
        | ']' :: rest => some (.arr [], rest)
        | r' =>
          match parseArrItems fuel r' with
          | some (items, rest) => some (.arr items, rest)
          | none => none
      else if c = lbrace then
        match skipWs r with
        | r' =>
          if r'.head? = some rbrace then some (.obj [], r'.tail)
          else
            match parseObjItems fuel r' with
            | some (pairs, rest) =>
              some (.obj (pairs.foldl (fun acc p => objUpsert acc p.1 p.2) []), rest)
            | none => none
      else if ['n', 'u', 'l', 'l'].isPrefixOf cs then some (.null, cs.drop 4)
      else if ['t', 'r', 'u', 'e'].isPrefixOf cs then some (.bool true, cs.drop 4)
      else if ['f', 'a', 'l', 's', 'e'].isPrefixOf cs then some (.bool false, cs.drop 5)
      else if ['N', 'a', 'N'].isPrefixOf cs then some (.num "NaN", cs.drop 3)
      else if ['I', 'n', 'f', 'i', 'n', 'i', 't', 'y'].isPrefixOf cs then
        some (.num "Infinity", cs.drop 8)
      else if ['-', 'I', 'n', 'f', 'i', 'n', 'i', 't', 'y'].isPrefixOf cs then
        some (.num "-Infinity", cs.drop 9)
      else
        match parseNumber cs with
        | some (lex, rest) => some (.num lex, rest)
        | none => none

/-- Elements of a non-empty JSON array, starting at the first element
(whitespace already skipped); consumes through the closing `]`. -/
def parseArrItems : Nat → List Char → Option (List JValue × List Char)
  | 0, _ => none
  | fuel + 1, cs =>
    match parseValue fuel cs with
    | none => none
    | some (v, rest) =>
      match skipWs rest with
      | ',' :: r2 =>
        match parseArrItems fuel (skipWs r2) with
        | some (vs, rest2) => some (v :: vs, rest2)
        | none => none
      | ']' :: r2 => some ([v], r2)
      | _ => none

/-- Members of a non-empty JSON object, starting at the first key's opening
quote (whitespace already skipped); consumes through the closing brace.
Pairs are returned in source order. -/
def parseObjItems : Nat → List Char → Option (List (String × JValue) × List Char)
  | 0, _ => none
  | fuel + 1, cs =>
    match cs with
    | '"' :: r =>
      match parseStringBody (r.length + 1) r with
      | none => none
      | some (kchars, r1) =>
        match skipWs r1 with
        | ':' :: r2 =>
          match parseValue fuel (skipWs r2) with
          | none => none
          | some (v, r3) =>
            match skipWs r3 with
            | ',' :: r4 =>
              match skipWs r4 with
              | r5 =>
                match parseObjItems fuel r5 with
                | some (ps, rest) => some ((String.mk kchars, v) :: ps, rest)
                | none => none
            | c :: r4 =>
              if c = rbrace then some ([(String.mk kchars, v)], r4) else none
            | [] => none
        | _ => none
    | _ => none

end

/-- `json.loads`: skip leading whitespace, read one value, require only
whitespace to remain (otherwise CPython raises `JSONDecodeError: Extra
data`).  `none` models a raised `json.decoder.JSONDecodeError`. -/
def loads (s : String) : Option JValue :=
  let cs := skipWs s.toList
  match parseValue (4 * (cs.length + 1)) cs with
  | some (v, rest) => if (skipWs rest).isEmpty then some v else none
  | none => none

/-! ### `json.dumps` (default options) -/

/-- Lowercase hexadecimal digit. -/
def hexDigitChar (n : Nat) : Char :=
  if n < 10 then Char.ofNat (48 + n) else Char.ofNat (87 + n)

/-- Four-digit lowercase hexadecimal rendering, as in `\uXXXX`. -/
def hexStr4 (n : Nat) : String :=
  String.mk [hexDigitChar (n / 4096 % 16), hexDigitChar (n / 256 % 16),
             hexDigitChar (n / 16 % 16), hexDigitChar (n % 16)]

/-- Encoding of one character inside a dumped JSON string, per CPython's
`ESCAPE_ASCII` (`ensure_ascii=True` default): backslash, quote and
everything outside printable ASCII are escaped, with surrogate pairs for
astral characters. -/
def escOut (c : Char) : String :=
  if c = '"' then "\\\""
  else if c = '\\' then "\\\\"
  else if c = '\n' then "\\n"
  else if c = '\r' then "\\r"
  else if c = '\t' then "\\t"
  else if c.toNat = 8 then "\\b"
  else if c.toNat = 12 then "\\f"
  else if 0x20 ≤ c.toNat ∧ c.toNat ≤ 0x7e then String.singleton c
  else if c.toNat < 0x10000 then "\\u" ++ hexStr4 c.toNat
  else
    "\\u" ++ hexStr4 (0xD800 + (c.toNat - 0x10000) / 0x400) ++
    "\\u" ++ hexStr4 (0xDC00 + (c.toNat - 0x10000) % 0x400)

/-- A dumped JSON string with its quotes. -/
def dumpStr (s : String) : String :=
  "\"" ++ String.join (s.toList.map escOut) ++ "\""

/-- Join rendered items with the default item separator `", "`. -/
def joinComma (items : List String) : String :=
  String.intercalate ", " items

mutual

/-- `json.dumps` with default arguments: separators `", "`/`": "`. -/
def dumps : JValue → String
  | .null => "null"
  | .bool true => "true"
  | .bool false => "false"
  | .num lexeme => lexeme
  | .str s => dumpStr s
  | .arr items => "[" ++ joinComma (dumpsList items) ++ "]"
  | .obj fields =>
    String.singleton lbrace ++ joinComma (dumpsFields fields) ++ String.singleton rbrace

/-- Rendered elements of an array. -/
def dumpsList : List JValue → List String
  | [] => []
  | v :: r => dumps v :: dumpsList r

/-- Rendered `"key": value` members of an object. -/
def dumpsFields : List (String × JValue) → List String
  | [] => []
  | (k, v) :: r => (dumpStr k ++ ": " ++ dumps v) :: dumpsFields r

end

/-! ### Python exceptions -/

/-- The Python exception classes that can arise in the modelled code paths. -/
inductive PyError where
  | attributeError : PyError
  | jsonDecodeError : PyError
  | keyError : PyError
  | indexError : PyError
  | valueError : PyError
  | typeError : PyError
  deriving DecidableEq, Repr

/-! ### The `re.match(r'(.+)((?:[{\[]).+)', message)` split

Both `.+` groups are greedy, `.` matches anything but `'\n'`, and
`re.match` anchors at the start only.  Hence the match succeeds exactly
when some index `i` satisfies: `i ≥ 1` (group 1 nonempty), no newline among
the first `i` characters, the character at `i` is `[` or a left brace, and
the character at `i + 1` exists and is not a newline (group 2 needs the
bracket plus at least one more character).  Greedy backtracking of group 1
selects the LARGEST such `i`; group 2 is then the maximal newline-free run
from `i`. -/

/-- A character that starts the payload per the regex class `[{\[]`. -/
def isPayloadStart (c : Char) : Bool :=
  c = lbrace || c = '['

/-- Not a newline (what `.` matches without `re.DOTALL`). -/
def notNl (c : Char) : Bool :=
  c ≠ '\n'

/-- Whether index `i` is a possible split point of the regex match. -/
def validSplit (s : List Char) (i : Nat) : Bool :=
  decide (1 ≤ i) && (s.take i).all notNl &&
    (match s.get? i with
     | some c => isPayloadStart c
     | none => false) &&
    (match s.get? (i + 1) with
     | some c => notNl c
     | none => false)

/-- The split point the greedy match selects: the largest valid index. -/
def matchSplit (s : List Char) : Option Nat :=
  ((List.range s.length).filter (validSplit s)).getLast?

/-- The two groups of `re.match(r'(.+)((?:[{\[]).+)', s)`, or `none` when
the regex does not match (Python's `re.match` returns `None`). -/
def reMatchGroups (s : List Char) : Option (List Char × List Char) :=
  match matchSplit s with
  | none => none
  | some i => some (s.take i, (s.drop i).takeWhile notNl)

/-! ### The wire codec, as `on_message` (lines 124-127) and `emit` (143) use it -/

/-- The parsing phase of `EventSocketHandler.on_message`: apply the regex,
take `match.group(1)` as the event and `match.group(2)` as the encoded
payload, and run `json.loads` on the latter.  When the regex returned
`None`, `match.group(1)` raises `AttributeError`; when the payload is not
valid JSON, `json.loads` raises `JSONDecodeError`. -/
def parse (raw : String) : Except PyError (String × JValue) :=
  match reMatchGroups raw.toList with
  | none => .error .attributeError
  | some (g1, g2) =>
    match loads (String.mk g2) with
    | none => .error .jsonDecodeError
    | some v => .ok (String.mk g1, v)

/-- `EventSocketHandler.emit`: `'{event}{json}'.format(event=event,
json=json.dumps(data))`, i.e. plain concatenation (the produced string is
then handed to the transport's `write_message`). -/
def emit (event : String) (data : JValue) : String :=
  event ++ dumps data

/-! ### The router -/

/-- An application handler, as passed to `register_listener`.  `name`
models the Python callable's `__name__`; `hid` is an identity token letting
theorems speak about WHICH handler was invoked; `run` is the callable's
behaviour on `(data, socket)`, which may raise. -/
structure Handler where
  name : String
  hid : Nat
  run : JValue → Nat → Except PyError Unit

/-- Python-dict update `d[k] = v`: an existing key keeps its position and
gets the new value, a new key is appended. -/
def dictSet (l : List (String × Handler)) (k : String) (v : Handler) :
    List (String × Handler) :=
  match l with
  | [] => [(k, v)]
  | (k', v') :: rest =>
    if k' = k then (k, v) :: rest else (k', v') :: dictSet rest k v

/-- Python-dict lookup `d[k]`, with `none` modelling a raised `KeyError`. -/
def dictGet (l : List (String × Handler)) (k : String) : Option Handler :=
  match l with
  | [] => none
  | (k', v') :: rest => if k' = k then some v' else dictGet rest k

/-- `EventSocketRouter` state: `listeners` dict, `sockets` list and the
`_next_sid` counter.  Sockets are identified by opaque `Nat` tokens (Python
compares handler objects by identity in `list.remove` / `list.index`). -/
structure Router where
  listeners : List (String × Handler)
  sockets : List Nat
  next_sid : Nat

/-- The state `EventSocketRouter.__init__` builds: empty listeners dict,
empty socket list, counter at 0. -/
def router0 : Router :=
  { listeners := [], sockets := [], next_sid := 0 }

/-- `EventSocketRouter.register_listener`: `self.listeners[event] =
listener`. -/
def register_listener (r : Router) (event : String) (listener : Handler) : Router :=
  { r with listeners := dictSet r.listeners event listener }

/-- `EventSocketRouter.register_socket`: append the socket, bump
`_next_sid`, return `_next_sid - 1` (the pre-increment value). -/
def register_socket (r : Router) (socket : Nat) : Router × Nat :=
  ({ r with sockets := r.sockets ++ [socket], next_sid := r.next_sid + 1 },
   r.next_sid)

/-- Python list indexing `l[id]` wrapped in `try/except IndexError`:
non-negative indices count from the front, negative ones from the end, and
an out-of-range index yields `None` (the `except` branch). -/
def pyListGet (l : List Nat) (id : Int) : Option Nat :=
  let j : Int := if id < 0 then (l.length : Int) + id else id
  if 0 ≤ j ∧ j < (l.length : Int) then l.get? j.toNat else none

/-- `EventSocketRouter.get_socket_by_id`: `self.sockets[id]` with
`IndexError` mapped to `None`. -/
def get_socket_by_id (r : Router) (id : Int) : Option Nat :=
  pyListGet r.sockets id

/-- The argument passed to `EventSocketRouter.on`: a string, a callable, or
anything else. -/
inductive OnArg where
  | str (s : String) : OnArg
  | fn (f : Handler) : OnArg
  | other : OnArg

/-- What `EventSocketRouter.on` returns on success: in string mode a
decorator closure still waiting for the function (it will register it under
the given event name), in callable mode the router with the function
registered under its own `__name__`. -/
inductive OnResult where
  | decorator (event : String) : OnResult
  | registered (r : Router) : OnResult

/-- `EventSocketRouter.on` (lines 57-89): `type(arg) == str` yields a
decorator, `callable(arg)` registers under `arg.__name__`, anything else
raises `TypeError` and registers nothing.  (Named `on'` because `on` is an
infix token in Lean/Mathlib.) -/
def on' (r : Router) (arg : OnArg) : Except PyError OnResult :=
  match arg with
  | .str s => .ok (.decorator s)
  | .fn f => .ok (.registered (register_listener r f.name f))
  | .other => .error .typeError

/-- Applying the decorator that `on` returned in string mode to a function:
`self.register_listener(arg, func)`. -/
def applyDecorator (r : Router) (event : String) (f : Handler) : Router :=
  register_listener r event f

/-- The observable outcome of `EventSocketRouter.on_received_message`:
which handlers were invoked (by `hid`, in order), whether the
`'No listener was found for event ...'` warning was logged, and an
exception propagating to the caller, if any. -/
structure RecvResult where
  invoked : List Nat
  warnedNoListener : Bool
  exc : Option PyError
  deriving DecidableEq, Repr

/-- `EventSocketRouter.on_received_message` (lines 91-95):
`try: self.listeners[event](data, socket) except KeyError or IndexError:
log`.  The clause `KeyError or IndexError` evaluates to `KeyError`, so
exactly `KeyError` is caught — whether raised by the dict lookup (no
listener) or by the handler body itself; every other exception the handler
raises propagates. -/
def on_received_message (r : Router) (event : String) (data : JValue)
    (socket : Nat) : RecvResult :=
  match dictGet r.listeners event with
  | none => { invoked := [], warnedNoListener := true, exc := none }
  | some h =>
    match h.run data socket with
    | .ok _ => { invoked := [h.hid], warnedNoListener := false, exc := none }
    | .error .keyError => { invoked := [h.hid], warnedNoListener := true, exc := none }
    | .error e => { invoked := [h.hid], warnedNoListener := false, exc := some e }

/-- The observable outcome of `EventSocketHandler.on_message`: the dispatch
result when dispatch was reached, whether the improper-format warning
branch (`except json.decoder.JSONDecodeError`) ran, an exception escaping
`on_message`, and the final value of `self.count`. -/
structure MsgResult where
  recv : Option RecvResult
  droppedBadFormat : Bool
  exc : Option PyError
  countAfter : Nat
  deriving DecidableEq, Repr

/-- `EventSocketHandler.on_message` (lines 121-135).  The `try` block runs
the regex, `match.group(1)`/`match.group(2)`, `json.loads` and the dispatch;
the sole `except` clause catches `json.decoder.JSONDecodeError`.  So: a
failed regex match raises `AttributeError` (uncaught — `match` is `None`);
invalid JSON is caught and the message dropped; a `JSONDecodeError` raised
inside a handler is also caught here; any other exception escaping the
dispatch escapes `on_message`.  `self.count += 1` runs only when no
exception escapes. -/
def on_message (r : Router) (socket : Nat) (count : Nat) (message : String) :
    MsgResult :=
  match reMatchGroups message.toList with
  | none =>
    { recv := none, droppedBadFormat := false, exc := some .attributeError,
      countAfter := count }
  | some (g1, g2) =>
    match loads (String.mk g2) with
    | none =>
      { recv := none, droppedBadFormat := true, exc := none,
        countAfter := count + 1 }
    | some data =>
      let rr := on_received_message r (String.mk g1) data socket
      match rr.exc with
      | some .jsonDecodeError =>
        { recv := some rr, droppedBadFormat := true, exc := none,
          countAfter := count + 1 }
      | some e =>
        { recv := some rr, droppedBadFormat := false, exc := some e,
          countAfter := count }
      | none =>
        { recv := some rr, droppedBadFormat := false, exc := none,
          countAfter := count + 1 }

/-- Python `list.remove(x)`: delete the first occurrence, raise
`ValueError` when `x` is absent. -/
def listRemove (l : List Nat) (x : Nat) : List Nat :=
  match l with
  | [] => []
  | y :: r => if y = x then r else y :: listRemove r x

/-- `EventSocketHandler.on_close` (lines 137-140):
`self.router.sockets.remove(self)` followed by the close hook.  When the
socket is not in the list, `list.remove` raises `ValueError`, which nothing
catches; the router state is then left unchanged. -/
def on_close (r : Router) (socket : Nat) : Except PyError Router :=
  if socket ∈ r.sockets then
    .ok { r with sockets := listRemove r.sockets socket }
  else .error .valueError

/-! ### Socket registration/removal histories (for the id-issuing claims) -/

/-- One lifecycle event against the router's socket table: a registration
(`EventSocketHandler.add_to_router`) or a close (`on_close`). -/
inductive SockOp where
  | reg (s : Nat) : SockOp
  | rem (s : Nat) : SockOp

/-- Apply one operation to `(router, ids issued so far)`.  A `rem` of an
absent socket raises `ValueError` out of `on_close` and leaves the router
unchanged (the exception propagates to the transport; no state mutates). -/
def applyOp (st : Router × List Nat) (op : SockOp) : Router × List Nat :=
  match op with
  | .reg s =>
    let p := register_socket st.1 s
    (p.1, st.2 ++ [p.2])
  | .rem s =>
    match on_close st.1 s with
    | .ok r' => (r', st.2)
    | .error _ => (st.1, st.2)

/-- Run a history of registrations and removals from a router, collecting
the ids `register_socket` issued, in order. -/
def runOps (r : Router) (ops : List SockOp) : Router × List Nat :=
  ops.foldl applyOp (r, [])

/-- Number of registrations in a history. -/
def countRegs (ops : List SockOp) : Nat :=
  ops.countP fun op => match op with | .reg _ => true | .rem _ => false

/-! ### Helper lemmas about the dict model -/

/-- Looking up the key just set returns the value just set. -/
theorem dictGet_dictSet_self (l : List (String × Handler)) (k : String) (v : Handler) :
    dictGet (dictSet l k v) k = some v := by
  induction l with
  | nil => simp [dictSet, dictGet]
  | cons p rest ih =>
    obtain ⟨k', v'⟩ := p
    by_cases h : k' = k
    · simp [dictSet, dictGet, h]
    · simp [dictSet, dictGet, h, ih]

/-- The keys after `dictSet`: unchanged when the key was present, the key
appended when it was new. -/
theorem keys_dictSet (l : List (String × Handler)) (k : String) (v : Handler) :
    (dictSet l k v).map Prod.fst =
      if k ∈ l.map Prod.fst then l.map Prod.fst else l.map Prod.fst ++ [k] := by
  induction l with
  | nil => simp [dictSet]
  | cons p rest ih =>
    obtain ⟨k', v'⟩ := p
    by_cases hk : k' = k
    · subst hk
      simp [dictSet]
    · have hk2 : ¬ k = k' := fun h => hk h.symm
      simp only [dictSet, if_neg hk, List.map_cons, ih]
      by_cases hm : k ∈ rest.map Prod.fst
      · simp [hm, hk2]
      · simp [hm, hk2]

/-- `dictSet` keeps the keys of the dict pairwise distinct. -/
theorem nodup_keys_dictSet (l : List (String × Handler)) (k : String) (v : Handler)
    (h : (l.map Prod.fst).Nodup) : ((dictSet l k v).map Prod.fst).Nodup := by
  rw [keys_dictSet]
  by_cases hm : k ∈ l.map Prod.fst
  · simpa [hm] using h
  · simp [hm, List.nodup_append, h]

/-! ### Helper lemmas about socket histories -/

/-- A removal step never touches the issued-id accumulator and never
changes the id counter (whether `on_close` succeeds or raises). -/
theorem applyOp_rem_eq (r : Router) (acc : List Nat) (s : Nat) :
    ∃ r', applyOp (r, acc) (.rem s) = (r', acc) ∧ r'.next_sid = r.next_sid := by
  by_cases hm : s ∈ r.sockets
  · exact ⟨{ r with sockets := listRemove r.sockets s },
      by simp [applyOp, on_close, hm], rfl⟩
  · exact ⟨r, by simp [applyOp, on_close, hm], rfl⟩

/-- The ids issued over a history are the counter values from the starting
counter on, one per registration, in order. -/
theorem runOps_ids_general (ops : List SockOp) :
    ∀ (r : Router) (acc : List Nat),
      (List.foldl applyOp (r, acc) ops).2 =
        acc ++ List.range' r.next_sid (countRegs ops) := by
  induction ops with
  | nil =>
    intro r acc
    simp [countRegs]
  | cons op ops ih =>
    intro r acc
    cases op with
    | reg s =>
      have step : List.foldl applyOp (r, acc) (SockOp.reg s :: ops) =
          List.foldl applyOp ((register_socket r s).1, acc ++ [r.next_sid]) ops := rfl
      rw [step, ih]
      have hsid : (register_socket r s).1.next_sid = r.next_sid + 1 := rfl
      have hc : countRegs (SockOp.reg s :: ops) = countRegs ops + 1 := by
        simp [countRegs, List.countP_cons]
      rw [hsid, hc, List.range'_succ]
      simp
    | rem s =>
      obtain ⟨r', heq, hsid⟩ := applyOp_rem_eq r acc s
      have step : List.foldl applyOp (r, acc) (SockOp.rem s :: ops) =
          List.foldl applyOp (applyOp (r, acc) (SockOp.rem s)) ops := rfl
      have hc : countRegs (SockOp.rem s :: ops) = countRegs ops := by
        simp [countRegs, List.countP_cons]
      rw [step, heq, ih, hsid, hc]

/-! ### Concrete fixtures used by witnesses and concrete theorems -/

/-- A nested payload whose serialization contains a second bracket. -/
def pNested : JValue := .obj [("a", .arr [.num "1"])]

/-- A handler that returns normally. -/
def hOkA : Handler := { name := "ha", hid := 1, run := fun _ _ => .ok () }

/-- Another handler that returns normally, distinguishable from `hOkA`. -/
def hOkB : Handler := { name := "hb", hid := 2, run := fun _ _ => .ok () }

/-- A handler that raises `KeyError` when invoked. -/
def hRaisesKey : Handler := { name := "evk", hid := 7, run := fun _ _ => .error .keyError }

/-- A handler that raises `IndexError` when invoked. -/
def hRaisesIdx : Handler := { name := "evi", hid := 8, run := fun _ _ => .error .indexError }

/-- A router whose `"ev"` listener raises `KeyError`. -/
def rRaisesKey : Router := register_listener router0 "ev" hRaisesKey

/-- A router whose `"ev"` listener raises `IndexError`. -/
def rRaisesIdx : Router := register_listener router0 "ev" hRaisesIdx

/-- Scenario: three sockets registered. -/
def rABC : Router :=
  (register_socket (register_socket (register_socket router0 10).1 20).1 30).1

/-- Scenario: three sockets registered, then the second one closed. -/
def rAfterClose : Router :=
  match on_close rABC 20 with
  | .ok r => r
  | .error _ => rABC

/-! ### The claims -/

/-- C1: the round-trip `parse(encode(e, p)) = (e, p)` FAILS on the code for
payloads whose serialization contains a second `[`/left-brace: the greedy
regex in `on_message` splits `emit "e" {"a": [1]} = 'e{"a": [1]}'` at the
LAST bracket, `json.loads('[1]}')` raises `JSONDecodeError`, and the
message is dropped.  A flat payload (single bracket) does round-trip.  This
contradicts the stated round-trip property; the wire format of the module
docstring (nested payloads among its examples) makes the spec the evident
intent and the greedy regex the slip. -/
theorem roundtrip_fails_on_nested_payload :
    emit "e" pNested = "e\x7b\"a\": [1]\x7d" ∧
    parse (emit "e" pNested) = .error .jsonDecodeError ∧
    parse (emit "x" (.arr [.num "1"])) = .ok ("x", .arr [.num "1"]) :=
  ⟨rfl, rfl, rfl⟩

/-- C2: `parse` does NOT split at the first `[`/left-brace.  Both regex
groups are greedy, so the split lands on the LAST eligible bracket: the
spec's own example `#!@c["test", {"is": ["a", 4]}]` is split as
`#!@c["test", {"is": ` / `["a", 4]}]`, whose tail is not valid JSON, so
parsing fails with `JSONDecodeError` instead of returning
`("#!@c", ["test", {"is": ["a", 4]}])`.  On `a[1]b[2]` the last-bracket
split is visible in a successful parse: the event comes out as `a[1]b`,
not `a`.  Single-bracket messages behave as the claim describes. -/
theorem parse_splits_at_last_bracket :
    parse "#!@c[\"test\", \x7b\"is\": [\"a\", 4]\x7d]" = .error .jsonDecodeError ∧
    parse "a[1]b[2]" = .ok ("a[1]b", .arr [.num "2"]) ∧
    parse "memes\x7b\"foo\": \"bar\"\x7d" = .ok ("memes", .obj [("foo", .str "bar")]) :=
  ⟨rfl, rfl, rfl⟩

/-- C3: a message on which the regex itself fails (no `[`/left-brace at
all, the empty string, or a bracket at position 0, i.e. empty event name)
is NOT dropped gracefully: `re.match` returns `None`, `match.group(1)`
raises `AttributeError`, and the `except json.decoder.JSONDecodeError`
clause does not catch it, so the exception escapes `on_message` (and
`self.count` is not incremented).  Only the invalid-JSON-after-a-bracket
case (`ev[dsa`) is caught and dropped as the claim describes. -/
theorem parse_failure_not_always_recovered :
    on_message router0 0 0 "asdf" =
      { recv := none, droppedBadFormat := false, exc := some .attributeError,
        countAfter := 0 } ∧
    on_message router0 0 0 "" =
      { recv := none, droppedBadFormat := false, exc := some .attributeError,
        countAfter := 0 } ∧
    on_message router0 0 0 "\x7b\"yer\":4\x7d" =
      { recv := none, droppedBadFormat := false, exc := some .attributeError,
        countAfter := 0 } ∧
    on_message router0 0 0 "ev[dsa" =
      { recv := none, droppedBadFormat := true, exc := none, countAfter := 1 } :=
  ⟨rfl, rfl, rfl, rfl⟩

/-- C4: removing a connection that is not in the router's socket list is
NOT safe: `self.router.sockets.remove(self)` raises `ValueError` whenever
the socket is absent, and nothing catches it. -/
theorem on_close_absent_socket_raises (r : Router) (s : Nat) (h : s ∉ r.sockets) :
    on_close r s = .error .valueError := by
  unfold on_close
  rw [if_neg h]

/-- Witness for C4 at a concrete router and socket. -/
theorem on_close_absent_socket_raises_witness :
    (5 ∉ router0.sockets) ∧ on_close router0 5 = .error .valueError :=
  ⟨by decide, on_close_absent_socket_raises router0 5 (by decide)⟩

/-- C5: over every history of registrations and removals started from a
fresh router, the ids issued by `register_socket` are exactly
`0, 1, ..., n-1` for `n` registrations, in order: ids start at 0, go up by
1 at each registration, and are never reused after a removal (removal
leaves `_next_sid` untouched). -/
theorem connection_ids_sequential_no_reuse (ops : List SockOp) :
    (runOps router0 ops).2 = List.range (countRegs ops) := by
  have h := runOps_ids_general ops router0 []
  rw [runOps, h]
  simp [router0, List.range_eq_range']

/-- C6: listener registration is last-wins upsert: after registering `h1`
then `h2` under the same event `x`, the lookup yields `h2`, dispatching `x`
invokes exactly `h2` (never `h1`), and the listeners dict still maps every
event name to at most one handler (its keys stay pairwise distinct). -/
theorem register_listener_last_wins (r : Router) (x : String) (h1 h2 : Handler)
    (hids : h1.hid ≠ h2.hid) (d : JValue) (s : Nat)
    (hkeys : (r.listeners.map Prod.fst).Nodup) :
    dictGet (register_listener (register_listener r x h1) x h2).listeners x = some h2 ∧
    (on_received_message (register_listener (register_listener r x h1) x h2) x d s).invoked
      = [h2.hid] ∧
    h1.hid ∉
      (on_received_message (register_listener (register_listener r x h1) x h2) x d s).invoked ∧
    ((register_listener (register_listener r x h1) x h2).listeners.map Prod.fst).Nodup := by
  have hget : dictGet (dictSet (dictSet r.listeners x h1) x h2) x = some h2 :=
    dictGet_dictSet_self (dictSet r.listeners x h1) x h2
  have hinv :
      (on_received_message (register_listener (register_listener r x h1) x h2) x d s).invoked
        = [h2.hid] := by
    cases hrun : h2.run d s with
    | ok u => simp [on_received_message, register_listener, hget, hrun]
    | error e =>
      cases e <;> simp [on_received_message, register_listener, hget, hrun]
  refine ⟨hget, hinv, ?_, ?_⟩
  · rw [hinv]
    simp [hids]
  · exact nodup_keys_dictSet _ x h2 (nodup_keys_dictSet _ x h1 hkeys)

/-- Witness for C6 at a concrete router and two concrete handlers. -/
theorem register_listener_last_wins_witness :
    hOkA.hid ≠ hOkB.hid ∧ ((router0.listeners.map Prod.fst).Nodup) ∧
    dictGet (register_listener (register_listener router0 "x" hOkA) "x" hOkB).listeners "x"
      = some hOkB ∧
    (on_received_message (register_listener (register_listener router0 "x" hOkA) "x" hOkB)
      "x" .null 0).invoked = [hOkB.hid] := by
  have h := register_listener_last_wins router0 "x" hOkA hOkB (by decide) .null 0
    (by simp [router0])
  exact ⟨by decide, by simp [router0], h.1, h.2.1⟩

/-- C7: dispatching an event with no registered listener raises nothing to
the caller: the `KeyError` from the dict lookup is caught, the
no-listener warning is logged, and no handler runs. -/
theorem dispatch_unregistered_no_raise (r : Router) (event : String) (d : JValue)
    (s : Nat) (h : dictGet r.listeners event = none) :
    on_received_message r event d s =
      { invoked := [], warnedNoListener := true, exc := none } := by
  unfold on_received_message
  rw [h]

/-- Witness for C7 on the fresh router. -/
theorem dispatch_unregistered_no_raise_witness :
    dictGet router0.listeners "nope" = none ∧
    on_received_message router0 "nope" .null 0 =
      { invoked := [], warnedNoListener := true, exc := none } :=
  ⟨rfl, dispatch_unregistered_no_raise router0 "nope" .null 0 rfl⟩

/-- C8: `on` with an argument that is neither a string nor a callable
raises `TypeError` immediately and registers nothing (the error path
produces no router); a string argument yields the decorator that registers
the decorated function under that string; a callable argument is
registered at once under its own `__name__`. -/
theorem on_registration_modes (r : Router) (s : String) (f g : Handler) :
    on' r .other = .error .typeError ∧
    on' r (.str s) = .ok (.decorator s) ∧
    dictGet (applyDecorator r s f).listeners s = some f ∧
    on' r (.fn g) = .ok (.registered (register_listener r g.name g)) ∧
    dictGet (register_listener r g.name g).listeners g.name = some g := by
  refine ⟨rfl, rfl, ?_, rfl, ?_⟩
  · exact dictGet_dictSet_self r.listeners s f
  · exact dictGet_dictSet_self r.listeners g.name g

/-- C9: inside `on_received_message`, a registered handler that raises
`KeyError` has the exception swallowed by `except KeyError or IndexError`
(which catches exactly `KeyError`) and reported as the no-listener
warning, while a handler raising any other exception type propagates it to
the caller of the dispatch. -/
theorem handler_keyerror_reported_as_missing (r : Router) (event : String)
    (d : JValue) (s : Nat) (h : Handler)
    (hreg : dictGet r.listeners event = some h) :
    (h.run d s = .error .keyError →
      on_received_message r event d s =
        { invoked := [h.hid], warnedNoListener := true, exc := none }) ∧
    (∀ e : PyError, e ≠ .keyError → h.run d s = .error e →
      on_received_message r event d s =
        { invoked := [h.hid], warnedNoListener := false, exc := some e }) := by
  constructor
  · intro hk
    simp [on_received_message, hreg, hk]
  · intro e hne hrun
    cases e with
    | keyError => exact absurd rfl hne
    | attributeError => simp [on_received_message, hreg, hrun]
    | jsonDecodeError => simp [on_received_message, hreg, hrun]
    | indexError => simp [on_received_message, hreg, hrun]
    | valueError => simp [on_received_message, hreg, hrun]
    | typeError => simp [on_received_message, hreg, hrun]

/-- Witness for C9: a `KeyError`-raising handler is reported as missing, an
`IndexError`-raising one propagates. -/
theorem handler_keyerror_reported_as_missing_witness :
    dictGet rRaisesKey.listeners "ev" = some hRaisesKey ∧
    on_received_message rRaisesKey "ev" .null 0 =
      { invoked := [hRaisesKey.hid], warnedNoListener := true, exc := none } ∧
    dictGet rRaisesIdx.listeners "ev" = some hRaisesIdx ∧
    on_received_message rRaisesIdx "ev" .null 0 =
      { invoked := [hRaisesIdx.hid], warnedNoListener := false,
        exc := some .indexError } := by
  have hk := (handler_keyerror_reported_as_missing rRaisesKey "ev" .null 0
    hRaisesKey rfl).1 rfl
  have hi := (handler_keyerror_reported_as_missing rRaisesIdx "ev" .null 0
    hRaisesIdx rfl).2 .indexError (by decide) rfl
  exact ⟨rfl, hk, rfl, hi⟩

/-- C10: `get_socket_by_id` is positional list indexing, not id lookup:
any id at or above the number of live sockets yields `none` (the
`IndexError` branch), an in-range negative id indexes from the end of the
list, and after a removal the socket at position 1 of the
register-10/20/30-then-close-20 scenario is the socket 30 — not socket 20,
which `register_socket` had assigned id 1. -/
theorem get_socket_by_id_positional (r : Router) (id : Int) :
    ((r.sockets.length : Int) ≤ id → get_socket_by_id r id = none) ∧
    (id < 0 → -(r.sockets.length : Int) ≤ id →
      get_socket_by_id r id = r.sockets.get? ((r.sockets.length : Int) + id).toNat) ∧
    ((register_socket (register_socket router0 10).1 20).2 = 1 ∧
      rAfterClose.sockets = [10, 30] ∧
      get_socket_by_id rAfterClose 1 = some 30) := by
  refine ⟨?_, ?_, rfl, by decide, by decide⟩
  · intro hle
    have hneg : ¬ id < 0 := by omega
    have hcond : ¬ ((0 : Int) ≤ id ∧ id < (r.sockets.length : Int)) := by omega
    simp only [get_socket_by_id, pyListGet, if_neg hneg, if_neg hcond]
  · intro hlt hge
    have hcond : (0 : Int) ≤ (r.sockets.length : Int) + id ∧
        (r.sockets.length : Int) + id < (r.sockets.length : Int) := by omega
    simp only [get_socket_by_id, pyListGet, if_pos hlt, if_pos hcond]

/-- Witness for C10 at the closed-socket scenario. -/
theorem get_socket_by_id_positional_witness :
    get_socket_by_id rAfterClose 5 = none ∧
    get_socket_by_id rAfterClose (-1) = some 30 := by
  have h1 := (get_socket_by_id_positional rAfterClose 5).1 (by decide)
  have h2 := (get_socket_by_id_positional rAfterClose (-1)).2.1 (by decide) (by decide)
  exact ⟨h1, h2.trans (by decide)⟩

end EventSocket
